import Mathlib

/- Verification of the ADS1115 demo driver (ADS1115_demo.py): byte-swap codec,
   configuration-word construction, and the readAdc register exchange. -/

set_option maxRecDepth 4096

namespace ADS1115

/-- Device address (ADDR tied to GND), `addr=0x48` in the source. -/
def addr : Nat := 0x48

/-- Register id of the conversion register. -/
def DEVICE_REG_CONVERSION : Nat := 0x00

/-- Register id of the configuration register. -/
def DEVICE_REG_CONFIG : Nat := 0x01

/-- Operational-status bit mask. -/
def CONFIG_OS : Nat := 0x8000

/-- Operational status: start a conversion (write sense). -/
def CONFIG_OS_START : Nat := 0x8000

/-- Operational status: device is performing a conversion (read sense). -/
def CONFIG_OS_PERFORMING_CONVERSION : Nat := 0x0000

/-- Mux: single-ended AIN0 against ground. -/
def CONFIG_MUX_AIN0P_GNDN : Nat := 0x4000

/-- Full-scale range 4.096 V. -/
def CONFIG_FSR_4V096 : Nat := 0x0200

/-- Single-shot conversion mode. -/
def CONFIG_MODE_SINGLE_SHOT : Nat := 0x0100

/-- Data rate 128 samples per second. -/
def CONFIG_DATA_RATE_128SPS : Nat := 0x0080

/-- Traditional comparator mode. -/
def CONFIG_COMP_MODE_TRADITIONAL : Nat := 0x0000

/-- Comparator polarity active low. -/
def CONFIG_COMP_POL_ACTIVE_LOW : Nat := 0x0000

/-- Comparator non-latching. -/
def CONFIG_COMP_LAT_NON_LATCHING : Nat := 0x0000

/-- Comparator queue disabled. -/
def CONFIG_COMP_QUE_DISABLE : Nat := 0x0003

/-- Byte swap of a 16-bit word, `swap(a)` in the source:
    `((a&0xff00)>>8)|((a&0x00ff)<<8)`. -/
def swap (a : Nat) : Nat :=
  ((a &&& 0xff00) >>> 8) ||| ((a &&& 0x00ff) <<< 8)

/-- The configuration word built by `readAdc` for a (valid) channel: the
    arithmetic sum of the field constants with the channel shifted into
    bits 12-14, exactly as in the source. -/
def config (channel : Nat) : Nat :=
  CONFIG_OS_START +
  CONFIG_MUX_AIN0P_GNDN +
  (channel <<< 12) +
  CONFIG_FSR_4V096 +
  CONFIG_MODE_SINGLE_SHOT +
  CONFIG_DATA_RATE_128SPS +
  CONFIG_COMP_MODE_TRADITIONAL +
  CONFIG_COMP_POL_ACTIVE_LOW +
  CONFIG_COMP_LAT_NON_LATCHING +
  CONFIG_COMP_QUE_DISABLE

/-- The nine field encodings summed by `readAdc`, with the channel shifted
    into the input-select field. -/
def configFields (channel : Nat) : List Nat :=
  [CONFIG_OS_START,
   CONFIG_MUX_AIN0P_GNDN + (channel <<< 12),
   CONFIG_FSR_4V096,
   CONFIG_MODE_SINGLE_SHOT,
   CONFIG_DATA_RATE_128SPS,
   CONFIG_COMP_MODE_TRADITIONAL,
   CONFIG_COMP_POL_ACTIVE_LOW,
   CONFIG_COMP_LAT_NON_LATCHING,
   CONFIG_COMP_QUE_DISABLE]

/-- A transport-level failure raised by the bus layer (an smbus exception). -/
structure BusError where
  code : Nat
deriving DecidableEq

/-- One bus access performed by the driver. -/
inductive BusOp where
  | write (deviceAddress registerId word : Nat)
  | read (deviceAddress registerId : Nat)
deriving DecidableEq

/-- A deterministic model of the SMBus transport: `writeReply` is the outcome
    of `bus.write_word_data(deviceAddress, registerId, word)`, and
    `readReply k deviceAddress registerId` is the outcome of the k-th read
    call `bus.read_word_data(deviceAddress, registerId)` made during one
    `readAdc` invocation (k counts all reads in call order). -/
structure Transport where
  writeReply : Nat → Nat → Nat → Except BusError Unit
  readReply : Nat → Nat → Nat → Except BusError Nat

/-- The `while True` polling loop of `readAdc` followed by the conversion
    read, with an explicit fuel bound standing in for the loop's missing
    bound: `none` means the loop was still spinning when the fuel ran out.
    `k` is the index of the next read call; the returned list records the
    bus operations performed. -/
def pollAndRead (t : Transport) : Nat → Nat → Option (Except BusError Int × List BusOp)
  | 0, _ => none
  | fuel + 1, k =>
    match t.readReply k addr DEVICE_REG_CONFIG with
    | .error e => some (.error e, [.read addr DEVICE_REG_CONFIG])
    | .ok w =>
      if (swap w &&& CONFIG_OS) ≠ CONFIG_OS_PERFORMING_CONVERSION then
        match t.readReply (k + 1) addr DEVICE_REG_CONVERSION with
        | .error e =>
          some (.error e, [.read addr DEVICE_REG_CONFIG, .read addr DEVICE_REG_CONVERSION])
        | .ok w2 =>
          some (.ok (Int.ofNat (swap w2)),
            [.read addr DEVICE_REG_CONFIG, .read addr DEVICE_REG_CONVERSION])
      else
        (pollAndRead t fuel (k + 1)).map (fun p => (p.1, .read addr DEVICE_REG_CONFIG :: p.2))

/-- The driver's final result given the reply to the conversion-register read
    at read index k: the byte-swapped word on success, the propagated bus
    error on failure. -/
def convReadResult (t : Transport) (k : Nat) : Except BusError Int :=
  match t.readReply k addr DEVICE_REG_CONVERSION with
  | .error e => .error e
  | .ok w => .ok (Int.ofNat (swap w))

/-- The `readAdc` function of the source, over the transport model: validate
    the channel (returning -1 on failure), write the byte-swapped config
    word, poll the config register until the operational-status bit reads
    set, then return the byte-swapped conversion register. A raised bus
    exception is the `.error` outcome; the list records the bus operations
    performed. -/
def readAdc (t : Transport) (channel : Int) (fuel : Nat) :
    Option (Except BusError Int × List BusOp) :=
  if channel > 3 ∨ channel < 0 then
    some (.ok (-1), [])
  else
    match t.writeReply addr DEVICE_REG_CONFIG (swap (config channel.toNat)) with
    | .error e =>
      some (.error e, [.write addr DEVICE_REG_CONFIG (swap (config channel.toNat))])
    | .ok _ =>
      (pollAndRead t fuel 0).map
        (fun p => (p.1, .write addr DEVICE_REG_CONFIG (swap (config channel.toNat)) :: p.2))

/-- A stub transport: writes succeed, the first status read reports busy,
    every later config read reports idle, and the conversion register reads
    as wire word 0x1234. -/
def stubTransport : Transport where
  writeReply := fun _ _ _ => .ok ()
  readReply := fun k _ registerId =>
    if registerId = DEVICE_REG_CONVERSION then .ok 0x1234
    else if k = 0 then .ok 0x0000 else .ok 0x0080

/-- A stub transport that always answers 0x0080 (idle once byte-swapped) on
    every read and accepts every write. -/
def idleTransport : Transport where
  writeReply := fun _ _ _ => .ok ()
  readReply := fun _ _ _ => .ok 0x0080

/-- A stub transport that always answers 0x0000 (busy once byte-swapped) on
    every read and accepts every write. -/
def busyTransport : Transport where
  writeReply := fun _ _ _ => .ok ()
  readReply := fun _ _ _ => .ok 0x0000

/-- A stub transport whose write always fails with error code 5. -/
def failingWriteTransport : Transport where
  writeReply := fun _ _ _ => .error ⟨5⟩
  readReply := fun _ _ _ => .ok 0

/-- Arithmetic characterization of the byte swap: high byte moves down,
    low byte moves up. -/
theorem swap_eq (a : Nat) : swap a = 256 * (a % 256) + a / 256 % 256 := by
  have h1 : (a &&& 0xff00) >>> 8 = a / 256 % 256 := by
    have e : (0xff00 : Nat) = (2 ^ 8 - 1) <<< 8 := by decide
    have e2 : a / 256 % 256 = (a >>> 8) % 2 ^ 8 := by
      rw [Nat.shiftRight_eq_div_pow]
      norm_num
    rw [e, e2]
    apply Nat.eq_of_testBit_eq
    intro i
    simp only [Nat.testBit_shiftRight, Nat.testBit_and, Nat.testBit_shiftLeft,
      Nat.testBit_two_pow_sub_one, Nat.testBit_mod_two_pow]
    have h8 : 8 + i - 8 = i := by omega
    rw [h8]
    simp [Nat.le_add_right, Bool.and_comm]
  have h2 : (a &&& 0x00ff) <<< 8 = 256 * (a % 256) := by
    have e : (0x00ff : Nat) = 2 ^ 8 - 1 := by norm_num
    rw [e, Nat.and_pow_two_sub_one_eq_mod, Nat.shiftLeft_eq]
    have : (2 : Nat) ^ 8 = 256 := by norm_num
    rw [this, Nat.mul_comm]
  have h3 : a / 256 % 256 < 2 ^ 8 := by
    have := Nat.mod_lt (a / 256) (show 0 < 256 by norm_num)
    norm_num
    omega
  calc swap a
      = ((a &&& 0xff00) >>> 8) ||| ((a &&& 0x00ff) <<< 8) := rfl
    _ = (a / 256 % 256) ||| (256 * (a % 256)) := by rw [h1, h2]
    _ = (2 ^ 8 * (a % 256)) ||| (a / 256 % 256) := by
        rw [Nat.or_comm]
        norm_num
    _ = 2 ^ 8 * (a % 256) + a / 256 % 256 := (Nat.mul_add_lt_is_or h3 _).symm
    _ = 256 * (a % 256) + a / 256 % 256 := by norm_num

/-- The byte swap of any natural number is a 16-bit value. -/
theorem swap_le (a : Nat) : swap a ≤ 0xFFFF := by
  have h := swap_eq a
  omega

/-- C3: for every 16-bit value, the byte swap is an involution and its
    result is again a 16-bit value. -/
theorem swap_involution (x : Nat) (h : x ≤ 0xFFFF) :
    swap (swap x) = x ∧ swap x ≤ 0xFFFF := by
  have e1 : swap x = 256 * (x % 256) + x / 256 := by
    have h0 := swap_eq x
    have h4 : x / 256 % 256 = x / 256 := Nat.mod_eq_of_lt (by omega)
    omega
  have e2 := swap_eq (swap x)
  have e3 : swap x % 256 = x / 256 := by omega
  have e4 : swap x / 256 = x % 256 := by omega
  constructor
  · omega
  · exact swap_le x

/-- Witness for C3 at the concrete input 0x1234. -/
theorem swap_involution_witness :
    (0x1234 : Nat) ≤ 0xFFFF ∧ swap (swap 0x1234) = 0x1234 ∧ swap 0x1234 ≤ 0xFFFF :=
  ⟨by decide, swap_involution 0x1234 (by decide)⟩

/-- C2: for every channel in 0..3, the configuration word has bits 12-14
    equal to the single-ended mux code 4 + channel, and bit 15 set. -/
theorem config_mux_bits (channel : Nat) (h : channel < 4) :
    (config channel >>> 12) &&& 0x7 = 4 + channel ∧
    (config channel >>> 15) &&& 0x1 = 1 := by
  revert channel
  decide

/-- Witness for C2 at channel 2. -/
theorem config_mux_bits_witness :
    2 < 4 ∧ ((config 2 >>> 12) &&& 0x7 = 4 + 2 ∧ (config 2 >>> 15) &&& 0x1 = 1) :=
  ⟨by decide, config_mux_bits 2 (by decide)⟩

/-- C4: for channel 2 the configuration word before byte swap is 0xE383,
    the bitwise OR of the documented field encodings. -/
theorem config_channel2 :
    config 2 = 0xE383 ∧
    config 2 =
      (0x8000 ||| 0x6000 ||| 0x0200 ||| 0x0100 ||| 0x0080 |||
       0x0000 ||| 0x0000 ||| 0x0000 ||| 0x0003 : Nat) := by
  decide

/-- C9: for every channel in 0..3, the arithmetic sum computed by the driver
    equals the bitwise OR of the field encodings, and no two field encodings
    share a set bit. -/
theorem config_fields_disjoint (channel : Nat) (h : channel < 4) :
    config channel = (configFields channel).foldr (· ||| ·) 0 ∧
    config channel = (configFields channel).sum ∧
    (configFields channel).Pairwise (fun a b => a &&& b = 0) := by
  revert channel
  decide

/-- Witness for C9 at channel 2. -/
theorem config_fields_disjoint_witness :
    2 < 4 ∧
    (config 2 = (configFields 2).foldr (· ||| ·) 0 ∧
     config 2 = (configFields 2).sum ∧
     (configFields 2).Pairwise (fun a b => a &&& b = 0)) :=
  ⟨by decide, config_fields_disjoint 2 (by decide)⟩

/-- C6: for every channel outside 0..3, readAdc returns the invalid-channel
    result -1 and the bus is never touched: no write and no read occurs. -/
theorem readAdc_invalid_channel (t : Transport) (channel : Int) (fuel : Nat)
    (h : channel > 3 ∨ channel < 0) :
    readAdc t channel fuel = some (.ok (-1), []) := by
  unfold readAdc
  rw [if_pos h]

/-- Witness for C6 at channel 4. -/
theorem readAdc_invalid_channel_witness :
    ((4 : Int) > 3 ∨ (4 : Int) < 0) ∧
    readAdc stubTransport 4 5 = some (.ok (-1), []) :=
  ⟨Or.inl (by decide), readAdc_invalid_channel stubTransport 4 5 (Or.inl (by decide))⟩

/-- For a valid channel whose config write succeeds, readAdc is the polling
    loop prefixed by the config write. -/
theorem readAdc_valid (t : Transport) (channel : Int) (fuel : Nat)
    (h0 : 0 ≤ channel) (h3 : channel ≤ 3)
    (hw : t.writeReply addr DEVICE_REG_CONFIG (swap (config channel.toNat)) = .ok ()) :
    readAdc t channel fuel =
      (pollAndRead t fuel 0).map
        (fun p =>
          (p.1, .write addr DEVICE_REG_CONFIG (swap (config channel.toNat)) :: p.2)) := by
  unfold readAdc
  rw [if_neg (by omega), hw]

/-- C7: if the config write fails, readAdc propagates the bus error and the
    only bus operation performed is that write: no status read and no
    conversion read follows. -/
theorem readAdc_write_failure (t : Transport) (channel : Int) (fuel : Nat) (e : BusError)
    (h0 : 0 ≤ channel) (h3 : channel ≤ 3)
    (hw : t.writeReply addr DEVICE_REG_CONFIG (swap (config channel.toNat)) = .error e) :
    readAdc t channel fuel =
      some (.error e, [.write addr DEVICE_REG_CONFIG (swap (config channel.toNat))]) := by
  unfold readAdc
  rw [if_neg (by omega), hw]

/-- Witness for C7 at channel 1 with error code 5. -/
theorem readAdc_write_failure_witness :
    (0 : Int) ≤ 1 ∧ (1 : Int) ≤ 3 ∧
    readAdc failingWriteTransport 1 7 =
      some (.error ⟨5⟩, [.write addr DEVICE_REG_CONFIG (swap (config 1))]) :=
  ⟨by decide, by decide,
    readAdc_write_failure failingWriteTransport 1 7 ⟨5⟩ (by decide) (by decide) rfl⟩

/-- If the first n status replies read busy and the next reads idle, the
    polling loop does exactly n+1 config reads and one conversion read. -/
theorem pollAndRead_exit (t : Transport) :
    ∀ n k fuel, n < fuel →
    (∀ j, j < n → ∃ w, t.readReply (k + j) addr DEVICE_REG_CONFIG = .ok w ∧
        swap w &&& CONFIG_OS = CONFIG_OS_PERFORMING_CONVERSION) →
    (∃ w, t.readReply (k + n) addr DEVICE_REG_CONFIG = .ok w ∧
        swap w &&& CONFIG_OS ≠ CONFIG_OS_PERFORMING_CONVERSION) →
    pollAndRead t fuel k =
      some (convReadResult t (k + n + 1),
        List.replicate (n + 1) (BusOp.read addr DEVICE_REG_CONFIG) ++
          [BusOp.read addr DEVICE_REG_CONVERSION]) := by
  intro n
  induction n with
  | zero =>
    intro k fuel hfuel _ hexit
    obtain ⟨w, hw, hbit⟩ := hexit
    cases fuel with
    | zero => exact absurd hfuel (by omega)
    | succ fuel =>
      unfold pollAndRead
      rw [Nat.add_zero] at hw
      simp only [hw]
      rw [if_pos hbit]
      simp only [Nat.add_zero]
      unfold convReadResult
      cases hconv : t.readReply (k + 1) addr DEVICE_REG_CONVERSION <;>
        simp [hconv, List.replicate]
  | succ n ih =>
    intro k fuel hfuel hbusy hexit
    cases fuel with
    | zero => exact absurd hfuel (by omega)
    | succ fuel =>
      obtain ⟨w, hw, hbit⟩ := hbusy 0 (Nat.succ_pos n)
      unfold pollAndRead
      rw [Nat.add_zero] at hw
      simp only [hw]
      rw [if_neg (fun hne => hne hbit)]
      have hbusy1 : ∀ j, j < n →
          ∃ w, t.readReply (k + 1 + j) addr DEVICE_REG_CONFIG = .ok w ∧
            swap w &&& CONFIG_OS = CONFIG_OS_PERFORMING_CONVERSION := by
        intro j hj
        have h := hbusy (j + 1) (by omega)
        rwa [show k + (j + 1) = k + 1 + j by omega] at h
      have hexit1 : ∃ w, t.readReply (k + 1 + n) addr DEVICE_REG_CONFIG = .ok w ∧
          swap w &&& CONFIG_OS ≠ CONFIG_OS_PERFORMING_CONVERSION := by
        obtain ⟨w1, hw1, hb1⟩ := hexit
        exact ⟨w1, by rwa [show k + 1 + n = k + (n + 1) by omega], hb1⟩
      rw [ih (k + 1) fuel (by omega) hbusy1 hexit1]
      rw [show k + 1 + n + 1 = k + (n + 1) + 1 by omega]
      simp [List.replicate]

/-- C1: with the first status reply busy (bit 15 clear after swap) and the
    second idle (bit 15 set after swap), readAdc performs exactly one config
    write, two status reads of the config register, and then one read of the
    conversion register. -/
theorem readAdc_two_status_reads (t : Transport) (channel : Int) (fuel : Nat)
    (w0 w1 : Nat)
    (h0 : 0 ≤ channel) (h3 : channel ≤ 3) (hfuel : 2 ≤ fuel)
    (hw : t.writeReply addr DEVICE_REG_CONFIG (swap (config channel.toNat)) = .ok ())
    (hr0 : t.readReply 0 addr DEVICE_REG_CONFIG = .ok w0)
    (hr1 : t.readReply 1 addr DEVICE_REG_CONFIG = .ok w1)
    (hb0 : swap w0 &&& CONFIG_OS = CONFIG_OS_PERFORMING_CONVERSION)
    (hb1 : swap w1 &&& CONFIG_OS ≠ CONFIG_OS_PERFORMING_CONVERSION) :
    readAdc t channel fuel =
      some (convReadResult t 2,
        [BusOp.write addr DEVICE_REG_CONFIG (swap (config channel.toNat)),
         BusOp.read addr DEVICE_REG_CONFIG,
         BusOp.read addr DEVICE_REG_CONFIG,
         BusOp.read addr DEVICE_REG_CONVERSION]) := by
  rw [readAdc_valid t channel fuel h0 h3 hw]
  have hbusy : ∀ j, j < 1 → ∃ w, t.readReply (0 + j) addr DEVICE_REG_CONFIG = .ok w ∧
      swap w &&& CONFIG_OS = CONFIG_OS_PERFORMING_CONVERSION := by
    intro j hj
    have hj0 : j = 0 := by omega
    subst hj0
    exact ⟨w0, hr0, hb0⟩
  have hexit : ∃ w, t.readReply (0 + 1) addr DEVICE_REG_CONFIG = .ok w ∧
      swap w &&& CONFIG_OS ≠ CONFIG_OS_PERFORMING_CONVERSION := ⟨w1, hr1, hb1⟩
  rw [pollAndRead_exit t 1 0 fuel (by omega) hbusy hexit]
  simp [List.replicate]

/-- Witness for C1: the stub transport at channel 0 with fuel 2. -/
theorem readAdc_two_status_reads_witness :
    readAdc stubTransport 0 2 =
      some (Except.ok 13330,
        [BusOp.write 0x48 0x01 0x83C3,
         BusOp.read 0x48 0x01,
         BusOp.read 0x48 0x01,
         BusOp.read 0x48 0x00]) := by
  rw [readAdc_two_status_reads stubTransport 0 2 0x0000 0x0080
    (by decide) (by decide) (by decide) rfl rfl rfl (by decide) (by decide)]
  rfl

/-- When every status read succeeds, the polling loop can only have produced
    a result if some reply reads idle (bit 15 set after swap). -/
theorem pollAndRead_some_exit (t : Transport) (f : Nat → Nat)
    (hr : ∀ k, t.readReply k addr DEVICE_REG_CONFIG = .ok (f k)) :
    ∀ fuel k res, pollAndRead t fuel k = some res →
    ∃ n, swap (f n) &&& CONFIG_OS ≠ CONFIG_OS_PERFORMING_CONVERSION := by
  intro fuel
  induction fuel with
  | zero =>
    intro k res h
    simp [pollAndRead] at h
  | succ fuel ih =>
    intro k res h
    unfold pollAndRead at h
    simp only [hr k] at h
    by_cases hb : swap (f k) &&& CONFIG_OS ≠ CONFIG_OS_PERFORMING_CONVERSION
    · exact ⟨k, hb⟩
    · rw [if_neg hb] at h
      cases hp : pollAndRead t fuel (k + 1) with
      | none =>
        rw [hp] at h
        simp at h
      | some p => exact ih (k + 1) p hp

/-- Any successful value produced by the polling loop is the byte swap of
    some conversion-register word. -/
theorem pollAndRead_ok_value (t : Transport) :
    ∀ fuel k v ops, pollAndRead t fuel k = some (.ok v, ops) →
    ∃ w, v = Int.ofNat (swap w) := by
  intro fuel
  induction fuel with
  | zero =>
    intro k v ops h
    simp [pollAndRead] at h
  | succ fuel ih =>
    intro k v ops h
    unfold pollAndRead at h
    cases hr : t.readReply k addr DEVICE_REG_CONFIG with
    | error e =>
      rw [hr] at h
      simp at h
    | ok w =>
      simp only [hr] at h
      by_cases hb : swap w &&& CONFIG_OS ≠ CONFIG_OS_PERFORMING_CONVERSION
      · rw [if_pos hb] at h
        cases hc : t.readReply (k + 1) addr DEVICE_REG_CONVERSION with
        | error e =>
          rw [hc] at h
          simp at h
        | ok w2 =>
          rw [hc] at h
          simp at h
          exact ⟨w2, h.1.symm⟩
      · rw [if_neg hb] at h
        cases hp : pollAndRead t fuel (k + 1) with
        | none =>
          rw [hp] at h
          simp at h
        | some p =>
          rw [hp] at h
          obtain ⟨r, ops1⟩ := p
          simp at h
          obtain ⟨hr1, -⟩ := h
          exact ih (k + 1) v ops1 (by rw [hp, hr1])

/-- C8: for a valid channel, a successful write, and an infinite sequence of
    successful status replies, readAdc terminates for some fuel if and only
    if some reply reads idle (bit 15 set after swap); with every reply busy
    the loop never exits, whatever the fuel. -/
theorem readAdc_poll_termination (t : Transport) (channel : Int) (f : Nat → Nat)
    (h0 : 0 ≤ channel) (h3 : channel ≤ 3)
    (hw : t.writeReply addr DEVICE_REG_CONFIG (swap (config channel.toNat)) = .ok ())
    (hr : ∀ k, t.readReply k addr DEVICE_REG_CONFIG = .ok (f k)) :
    (∃ fuel res, readAdc t channel fuel = some res) ↔
    (∃ n, swap (f n) &&& CONFIG_OS ≠ CONFIG_OS_PERFORMING_CONVERSION) := by
  constructor
  · rintro ⟨fuel, res, h⟩
    rw [readAdc_valid t channel fuel h0 h3 hw] at h
    cases hp : pollAndRead t fuel 0 with
    | none =>
      rw [hp] at h
      simp at h
    | some p => exact pollAndRead_some_exit t f hr fuel 0 p hp
  · intro h
    have hn : swap (f (Nat.find h)) &&& CONFIG_OS ≠ CONFIG_OS_PERFORMING_CONVERSION :=
      Nat.find_spec h
    have hmin : ∀ j, j < Nat.find h →
        swap (f j) &&& CONFIG_OS = CONFIG_OS_PERFORMING_CONVERSION := by
      intro j hj
      exact not_not.mp (Nat.find_min h hj)
    refine ⟨Nat.find h + 1,
      (convReadResult t (0 + Nat.find h + 1),
        BusOp.write addr DEVICE_REG_CONFIG (swap (config channel.toNat)) ::
          (List.replicate (Nat.find h + 1) (BusOp.read addr DEVICE_REG_CONFIG) ++
            [BusOp.read addr DEVICE_REG_CONVERSION])), ?_⟩
    rw [readAdc_valid t channel (Nat.find h + 1) h0 h3 hw]
    rw [pollAndRead_exit t (Nat.find h) 0 (Nat.find h + 1) (by omega)
      (fun j hj => by
        rw [Nat.zero_add]
        exact ⟨f j, hr j, hmin j hj⟩)
      (by
        rw [Nat.zero_add]
        exact ⟨f (Nat.find h), hr (Nat.find h), hn⟩)]
    rfl

/-- Witness for C8: with every status reply idle, readAdc terminates. -/
theorem readAdc_poll_termination_witness :
    ∃ fuel res, readAdc idleTransport 1 fuel = some res :=
  (readAdc_poll_termination idleTransport 1 (fun _ => 0x0080)
    (by decide) (by decide) rfl (fun _ => rfl)).mpr ⟨0, by decide⟩

/-- C10: for a valid channel, any successfully returned value lies in
    0..65535, so it is never the -1 used for an invalid channel. -/
theorem readAdc_result_range (t : Transport) (channel : Int) (fuel : Nat)
    (v : Int) (ops : List BusOp)
    (h0 : 0 ≤ channel) (h3 : channel ≤ 3)
    (h : readAdc t channel fuel = some (.ok v, ops)) :
    0 ≤ v ∧ v ≤ 65535 := by
  unfold readAdc at h
  rw [if_neg (by omega)] at h
  cases hw : t.writeReply addr DEVICE_REG_CONFIG (swap (config channel.toNat)) with
  | error e =>
    simp only [hw] at h
    simp at h
  | ok u =>
    simp only [hw] at h
    cases hp : pollAndRead t fuel 0 with
    | none =>
      rw [hp] at h
      simp at h
    | some p =>
      rw [hp] at h
      obtain ⟨r, ops1⟩ := p
      simp at h
      obtain ⟨hr1, -⟩ := h
      obtain ⟨w, hv⟩ := pollAndRead_ok_value t fuel 0 v ops1 (by rw [hp, hr1])
      have hle := swap_le w
      subst hv
      exact ⟨Int.ofNat_nonneg _, Int.ofNat_le.mpr hle⟩

/-- Witness for C10: the idle stub at channel 0 returns 32768. -/
theorem readAdc_result_range_witness :
    (0 : Int) ≤ 32768 ∧ (32768 : Int) ≤ 65535 :=
  readAdc_result_range idleTransport 0 1 32768
    [BusOp.write 0x48 0x01 0x83C3, BusOp.read 0x48 0x01, BusOp.read 0x48 0x00]
    (by decide) (by decide) rfl

/-- A word whose operational-status bit is set is at least 2 to the 15. -/
theorem high_bit_ge (x : Nat)
    (h : x &&& CONFIG_OS ≠ CONFIG_OS_PERFORMING_CONVERSION) : 32768 ≤ x := by
  have e : x &&& CONFIG_OS = (x.testBit 15).toNat * 2 ^ 15 := by
    have e15 : CONFIG_OS = 2 ^ 15 := by decide
    rw [e15, Nat.and_two_pow]
  cases ht : x.testBit 15 with
  | false =>
    exfalso
    apply h
    rw [e, ht]
    rfl
  | true =>
    have hge := Nat.testBit_implies_ge ht
    calc (32768 : Nat) = 2 ^ 15 := by norm_num
      _ ≤ x := hge

/-- C5 counterexample: with the conversion register reading wire word 0x0080,
    whose byte-swapped form 0x8000 has bit 15 set, readAdc returns 32768,
    which is not negative: the result is not interpreted as a 16-bit
    two's-complement signed integer. -/
theorem readAdc_signed_counterexample :
    readAdc idleTransport 0 1 =
      some (Except.ok 32768,
        [BusOp.write 0x48 0x01 0x83C3, BusOp.read 0x48 0x01, BusOp.read 0x48 0x00]) ∧
    swap 0x0080 &&& CONFIG_OS ≠ CONFIG_OS_PERFORMING_CONVERSION ∧
    ¬(32768 : Int) < 0 :=
  ⟨rfl, by decide, by decide⟩

/-- C5 amended: for every valid channel and terminating, error-free trace,
    readAdc returns the byte-swapped conversion-register word as a
    nonnegative (unsigned) integer; when the swapped form has bit 15 set the
    result is at least 32768 rather than negative. -/
theorem readAdc_returns_unsigned_swap (t : Transport) (channel : Int)
    (n fuel : Nat) (f : Nat → Nat) (w2 : Nat)
    (h0 : 0 ≤ channel) (h3 : channel ≤ 3) (hfuel : n < fuel)
    (hw : t.writeReply addr DEVICE_REG_CONFIG (swap (config channel.toNat)) = .ok ())
    (hr : ∀ k, k ≤ n → t.readReply k addr DEVICE_REG_CONFIG = .ok (f k))
    (hbusy : ∀ j, j < n → swap (f j) &&& CONFIG_OS = CONFIG_OS_PERFORMING_CONVERSION)
    (hexit : swap (f n) &&& CONFIG_OS ≠ CONFIG_OS_PERFORMING_CONVERSION)
    (hconv : t.readReply (n + 1) addr DEVICE_REG_CONVERSION = .ok w2) :
    readAdc t channel fuel =
      some (Except.ok (Int.ofNat (swap w2)),
        BusOp.write addr DEVICE_REG_CONFIG (swap (config channel.toNat)) ::
          (List.replicate (n + 1) (BusOp.read addr DEVICE_REG_CONFIG) ++
            [BusOp.read addr DEVICE_REG_CONVERSION])) ∧
    (0 : Int) ≤ Int.ofNat (swap w2) ∧
    (swap w2 &&& CONFIG_OS ≠ CONFIG_OS_PERFORMING_CONVERSION →
      (32768 : Int) ≤ Int.ofNat (swap w2)) := by
  refine ⟨?_, Int.ofNat_nonneg _, ?_⟩
  · rw [readAdc_valid t channel fuel h0 h3 hw]
    rw [pollAndRead_exit t n 0 fuel hfuel
      (fun j hj => by
        rw [Nat.zero_add]
        exact ⟨f j, hr j (by omega), hbusy j hj⟩)
      (by
        rw [Nat.zero_add]
        exact ⟨f n, hr n (by omega), hexit⟩)]
    rw [show (0 : Nat) + n + 1 = n + 1 by omega]
    unfold convReadResult
    simp only [hconv]
    rfl
  · intro hbit
    have hge := high_bit_ge (swap w2) hbit
    exact Int.ofNat_le.mpr hge

/-- Witness for C5 amended: the stub transport at channel 0 with one busy
    poll and conversion wire word 0x1234 yields 13330. -/
theorem readAdc_returns_unsigned_swap_witness :
    readAdc stubTransport 0 2 =
      some (Except.ok 13330,
        BusOp.write addr DEVICE_REG_CONFIG (swap (config 0)) ::
          (List.replicate 2 (BusOp.read addr DEVICE_REG_CONFIG) ++
            [BusOp.read addr DEVICE_REG_CONVERSION])) ∧
    (0 : Int) ≤ 13330 := by
  have h := readAdc_returns_unsigned_swap stubTransport 0 1 2
    (fun k => if k = 0 then 0x0000 else 0x0080) 0x1234
    (by decide) (by decide) (by omega) rfl
    (fun k hk => by interval_cases k <;> rfl)
    (fun j hj => by
      have hj0 : j = 0 := by omega
      subst hj0
      decide)
    (by decide) rfl
  exact ⟨h.1, by decide⟩

/-- With every status reply busy, the polling loop exhausts any fuel:
    readAdc never produces a result, however large the bound. -/
theorem readAdc_busy_spins_forever (fuel : Nat) :
    readAdc busyTransport 0 fuel = none := by
  have hpoll : ∀ fl k, pollAndRead busyTransport fl k = none := by
    intro fl
    induction fl with
    | zero =>
      intro k
      rfl
    | succ fl ih =>
      intro k
      unfold pollAndRead
      have hr : busyTransport.readReply k addr DEVICE_REG_CONFIG = Except.ok 0x0000 := rfl
      simp only [hr]
      rw [if_neg (fun hne => hne rfl)]
      rw [ih (k + 1)]
      rfl
  rw [readAdc_valid busyTransport 0 fuel (by decide) (by decide) rfl, hpoll]
  rfl

end ADS1115
